import Mathlib

/-!
Shallow embedding of the monitored-item sampling and notification-queuing
engine of the OPC UA server component
(src/server/src/subscriptions/monitored_item.rs), together with the parts of
the core data model it depends on (src/core/src/types/data_value.rs).

Modelling conventions:
- Instants (`chrono::DateTime<chrono::UTC>`) are integers counting
  nanoseconds; a `time::Duration` is likewise an integer number of
  nanoseconds, so `time::Duration::milliseconds k` is `k * 1000000`.
- The `f64` sampling interval is modelled by `F64`: either NaN or an exact
  rational. Only the operations the code performs on it are provided
  (comparisons with zero and the Rust `as i64` saturating truncation).
- Mutation is explicit state passing: `tick` and `get_notification_message`
  return the updated item alongside their result.
-/

namespace OpcUa

/-- Model of the `f64` sampling interval: NaN or an exact rational value.
Infinities do not arise in any claim and are not modelled. -/
inductive F64 where
  | nan : F64
  | num : ℚ → F64
deriving DecidableEq

/-- Truncation of a rational toward zero (the rounding of Rust `as i64`).
Since the numerator handed to the integer division is nonnegative in both
branches, floor division coincides with truncation there. -/
def ratTrunc (q : ℚ) : ℤ :=
  if q < 0 then -((-q).num / ((-q).den : ℤ)) else q.num / (q.den : ℤ)

/-- Rust `expr as i64` on an `f64`: NaN casts to 0, otherwise truncate toward
zero and saturate to the signed 64-bit range. -/
def F64.toI64 : F64 → ℤ
  | F64.nan => 0
  | F64.num q =>
    let t := ratTrunc q
    if t < -(2 ^ 63) then -(2 ^ 63)
    else if t > 2 ^ 63 - 1 then 2 ^ 63 - 1
    else t

/-- `x > 0f64` (false for NaN). -/
def F64.gt0 : F64 → Bool
  | F64.nan => false
  | F64.num q => decide (0 < q)

/-- `x == 0f64` (false for NaN). -/
def F64.eq0 : F64 → Bool
  | F64.nan => false
  | F64.num q => decide (q = 0)

/-- `x < 0f64` (false for NaN). -/
def F64.lt0 : F64 → Bool
  | F64.nan => false
  | F64.num q => decide (q < 0)

/-- `pub type Duration = f64;` from the core types. -/
abbrev Duration := F64

/-- Status codes: only the codes the embedded operations mention are named;
all others are collapsed into `other`. -/
inductive StatusCode where
  | BadFilterNotAllowed : StatusCode
  | other : Nat → StatusCode
deriving DecidableEq

/-- The variants carried by a `DataValue`. The monitored-item logic treats the
value as opaque (it is only stored, cloned and handed to the deadband
comparison), so the tagged union of scalar/array kinds is modelled by an
opaque identity. -/
structure Variant where
  val : Nat
deriving DecidableEq

/-- `DataValue` (src/core/src/types/data_value.rs): an optional variant plus
quality and dual timestamps. The monitored-item code treats `value` as
optional (`is_some`/`is_none` on the inner value). -/
structure DataValue where
  value : Option Variant
  status : StatusCode
  source_timestamp : ℤ
  source_pico_seconds : ℤ
  server_timestamp : ℤ
  server_pico_seconds : ℤ
deriving DecidableEq

/-- Modelled from the spec: the change filter contract
`compare(value_a, value_b, context) -> success(bool) | failure`, where the
boolean means "equivalent, no notification needed". The concrete
`DataChangeFilter::deadband_compare` body is not under src/, so the filter is
modelled as the comparison function itself. -/
structure DataChangeFilter where
  deadband_compare : Variant → Variant → Option Unit → Except StatusCode Bool

/-- `FilterType`: tagged union over the supported filter kinds; currently
exactly the data-change (deadband) filter. -/
inductive FilterType where
  | DataChangeFilter : DataChangeFilter → FilterType

/-- Node identifiers: only equality is used by the embedded code, so they are
modelled as bare naturals. -/
abbrev NodeId := Nat

/-- Modelled from the spec: the numeric node id of the
`DataChangeFilter_Encoding_DefaultBinary` object, against which the filter
payload's type identifier is compared. Its concrete value is irrelevant to
the logic; only equality with it matters. -/
def dataChangeFilterEncodingDefaultBinaryId : NodeId := 724

/-- Modelled from the spec: an encoded filter payload (`ExtensionObject`)
carries its type identifier and, via the external codec, decodes to a
concrete `DataChangeFilter` or fails. The codec being out of scope, the
decode outcome is carried directly. -/
structure ExtensionObject where
  node_id : NodeId
  decoded : Except StatusCode DataChangeFilter

/-- `decode_inner::<DataChangeFilter>()` of the codec contract. -/
def ExtensionObject.decode_inner (e : ExtensionObject) : Except StatusCode DataChangeFilter :=
  e.decoded

/-- `ReadValueId`, restricted to the two fields the monitored item reads:
the target node id and the raw `u32` attribute id. -/
structure ReadValueId where
  node_id : NodeId
  attribute_id : Nat
deriving DecidableEq

/-- `MonitoringMode` from the core types. -/
inductive MonitoringMode where
  | Disabled : MonitoringMode
  | Sampling : MonitoringMode
  | Reporting : MonitoringMode
deriving DecidableEq

/-- `MonitoringParameters` of a creation request, restricted to the fields
the constructor reads. -/
structure MonitoringParameters where
  client_handle : Nat
  sampling_interval : Duration
  filter : ExtensionObject
  queue_size : Nat
  discard_oldest : Bool

/-- `MonitoredItemCreateRequest`, restricted to the fields the constructor
reads. -/
structure MonitoredItemCreateRequest where
  item_to_monitor : ReadValueId
  monitoring_mode : MonitoringMode
  requested_parameters : MonitoringParameters

/-- `MonitoredItemNotification`: client handle paired with the sampled value. -/
structure MonitoredItemNotification where
  client_handle : Nat
  value : DataValue
deriving DecidableEq

/-- Modelled from the spec: the storage view's node, exposing
`find_attribute(attribute_id) -> optional DataValue` as an association list. -/
structure Node where
  attributes : List (Nat × DataValue)
deriving DecidableEq

/-- `Node::find_attribute` of the storage view contract. -/
def Node.find_attribute (node : Node) (attribute_id : Nat) : Option DataValue :=
  node.attributes.lookup attribute_id

/-- Modelled from the spec: the storage view (`AddressSpace`), exposing
`find_node(node_id) -> optional Node` as an association list. -/
structure AddressSpace where
  nodes : List (NodeId × Node)

/-- `AddressSpace::find_node` of the storage view contract. -/
def AddressSpace.find_node (address_space : AddressSpace) (node_id : NodeId) : Option Node :=
  address_space.nodes.lookup node_id

/-- Modelled from the spec: `AttributeId::from_u32` validates a raw `u32`
against the known attribute identifier space (the protocol's fixed range of
attribute ids, 1 to 22) and fails outside it. -/
def AttributeId.from_u32 (n : Nat) : Except Unit Nat :=
  if 1 ≤ n ∧ n ≤ 22 then Except.ok n else Except.error ()

/-- `MonitoredItem` (monitored_item.rs lines 16-29). -/
structure MonitoredItem where
  monitored_item_id : Nat
  item_to_monitor : ReadValueId
  monitoring_mode : MonitoringMode
  client_handle : Nat
  sampling_interval : Duration
  filter : FilterType
  discard_oldest : Bool
  queue_size : Nat
  notification_queue : List MonitoredItemNotification
  last_sample_time : ℤ
  last_data_value : Option DataValue
  queue_overflow : Bool

/-- `MonitoredItem::new` (lines 32-58). `chrono::UTC::now()` is passed in as
the explicit `now` argument. -/
def MonitoredItem.new (monitored_item_id : Nat) (request : MonitoredItemCreateRequest)
    (now : ℤ) : Except StatusCode MonitoredItem :=
  if request.requested_parameters.filter.node_id ≠ dataChangeFilterEncodingDefaultBinaryId then
    Except.error StatusCode.BadFilterNotAllowed
  else
    match request.requested_parameters.filter.decode_inner with
    | Except.error e => Except.error e
    | Except.ok filterInner =>
      let filter := FilterType.DataChangeFilter filterInner
      let sampling_interval := request.requested_parameters.sampling_interval
      let queue_size :=
        if request.requested_parameters.queue_size < 1 then 1
        else request.requested_parameters.queue_size
      Except.ok
        { monitored_item_id := monitored_item_id
          item_to_monitor := request.item_to_monitor
          monitoring_mode := request.monitoring_mode
          client_handle := request.requested_parameters.client_handle
          sampling_interval := sampling_interval
          filter := filter
          discard_oldest := request.requested_parameters.discard_oldest
          last_sample_time := now
          last_data_value := none
          queue_size := queue_size
          notification_queue := []
          queue_overflow := false }

/-- `MonitoredItem::get_notification_message` (lines 60-68): take the first
item off the queue, clearing the overflow flag; `none` on an empty queue. -/
def MonitoredItem.get_notification_message (m : MonitoredItem) :
    Option MonitoredItemNotification × MonitoredItem :=
  match m.notification_queue with
  | [] => (none, m)
  | n :: rest =>
    (some n, { m with queue_overflow := false, notification_queue := rest })

/-- The due decision computed into `check_value` at the top of
`MonitoredItem::tick` (lines 78-92). -/
def MonitoredItem.check_value (m : MonitoredItem) (now : ℤ)
    (subscription_interval_elapsed : Bool) : Bool :=
  if m.sampling_interval.gt0 then
    let sampling_interval := m.sampling_interval.toI64 * 1000000
    let elapsed := now - m.last_sample_time
    decide (elapsed ≥ sampling_interval)
  else if m.sampling_interval.eq0 then
    true
  else if m.sampling_interval.lt0 then
    subscription_interval_elapsed
  else
    m.last_data_value.isNone

/-- `MonitoredItem::compare_data_values` (lines 165-188): true means the two
data values count as the same under the filter. -/
def MonitoredItem.compare_data_values (filter : DataChangeFilter)
    (dv1 dv2 : DataValue) : Bool :=
  match dv1.value, dv2.value with
  | some _, none => false
  | none, some _ => false
  | none, none => true
  | some v1, some v2 =>
    match filter.deadband_compare v1 v2 none with
    | Except.ok result => result
    | Except.error _ => true

/-- The enqueue-with-overflow block of `MonitoredItem::tick` (lines 139-151).
On the `discard_oldest = false` branch the source assigns
`self.notification_queue[0] = notification_message`; that indexing is only
reached with `len == queue_size`, and for the nonempty queues arising there
it is replacing the front entry. -/
def MonitoredItem.enqueue_notification (m : MonitoredItem)
    (notification_message : MonitoredItemNotification) : MonitoredItem :=
  if m.notification_queue.length = m.queue_size then
    if m.discard_oldest then
      { m with notification_queue := notification_message :: m.notification_queue.dropLast
               queue_overflow := true }
    else
      { m with notification_queue := notification_message :: m.notification_queue.tail
               queue_overflow := true }
  else
    { m with notification_queue := notification_message :: m.notification_queue }

/-- `MonitoredItem::tick` (lines 77-160). Returns the boolean the source
returns (was a notification queued?) together with the updated item. -/
def MonitoredItem.tick (m : MonitoredItem) (address_space : AddressSpace) (now : ℤ)
    (subscription_interval_elapsed : Bool) : Bool × MonitoredItem :=
  let check_value := m.check_value now subscription_interval_elapsed
  if !check_value then
    (false, m)
  else
    let m := { m with last_sample_time := now }
    match address_space.find_node m.item_to_monitor.node_id with
    | none => (false, m)
    | some node =>
      match AttributeId.from_u32 m.item_to_monitor.attribute_id with
      | Except.error _ => (false, m)
      | Except.ok attribute_id =>
        let filter := match m.filter with
          | FilterType.DataChangeFilter f => f
        match node.find_attribute attribute_id with
        | none => (false, m)
        | some data_value =>
          let data_change :=
            match m.last_data_value with
            | none => true
            | some last => !(MonitoredItem.compare_data_values filter data_value last)
          if data_change then
            let m := { m with last_data_value := some data_value }
            let notification_message : MonitoredItemNotification :=
              { client_handle := m.client_handle, value := data_value }
            (data_change, m.enqueue_notification notification_message)
          else
            (data_change, m)

/-! Spec-side definitions, written from the specification's words, for
refinement comparison with the embedded code. -/

/-- The change decision exactly as §4.3 of the spec states it: no previous
observation means changed; a Some/None transition of the inner values means
changed; both inner values absent means unchanged; both present defers to the
filter's equivalence verdict (changed when not equivalent), and a failing
filter call counts as unchanged. -/
def specChangeDecision (last : Option DataValue) (dv : DataValue)
    (f : DataChangeFilter) : Bool :=
  match last with
  | none => true
  | some prev =>
    match dv.value, prev.value with
    | some _, none => true
    | none, some _ => true
    | none, none => false
    | some v1, some v2 =>
      match f.deadband_compare v1 v2 none with
      | Except.ok equivalent => !equivalent
      | Except.error _ => false

/-- The due decision exactly as the claim states it: for a positive interval,
due when the elapsed time is at least the interval itself (in milliseconds,
compared exactly); zero interval always due; negative interval due exactly
when the subscription elapsed; otherwise (NaN) due exactly when there is no
prior observation. -/
def specDueClaim (m : MonitoredItem) (now : ℤ)
    (subscription_interval_elapsed : Bool) : Bool :=
  match m.sampling_interval with
  | F64.num q =>
    if 0 < q then decide (mkRat (now - m.last_sample_time) 1000000 ≥ q)
    else if q = 0 then true
    else subscription_interval_elapsed
  | F64.nan => m.last_data_value.isNone

/-- The due decision with the positive-interval bound amended to the
interval truncated toward zero (and saturated) to a whole number of
milliseconds, as the `as i64` cast in the source performs. -/
def specDueAmended (m : MonitoredItem) (now : ℤ)
    (subscription_interval_elapsed : Bool) : Bool :=
  match m.sampling_interval with
  | F64.num q =>
    if 0 < q then decide (now - m.last_sample_time ≥ m.sampling_interval.toI64 * 1000000)
    else if q = 0 then true
    else subscription_interval_elapsed
  | F64.nan => m.last_data_value.isNone

/-! The observable interface of a monitored item, as a state machine over
sequences of tick and dequeue calls. -/

/-- One call of the driver contract: a tick (with its storage view, instant
and subscription-elapsed flag) or a dequeue. -/
inductive Call where
  | tick : AddressSpace → ℤ → Bool → Call
  | dequeue : Call

/-- The result observed from one call. -/
inductive CallResult where
  | ticked : Bool → CallResult
  | dequeued : Option MonitoredItemNotification → CallResult
deriving DecidableEq

/-- Run a sequence of calls against a monitored item, collecting the final
state and the list of observed results. -/
def runCalls : MonitoredItem → List Call → MonitoredItem × List CallResult
  | m, [] => (m, [])
  | m, Call.tick address_space now elapsed :: rest =>
    let step := m.tick address_space now elapsed
    let cont := runCalls step.2 rest
    (cont.1, CallResult.ticked step.1 :: cont.2)
  | m, Call.dequeue :: rest =>
    let step := m.get_notification_message
    let cont := runCalls step.2 rest
    (cont.1, CallResult.dequeued step.1 :: cont.2)

/-- The monitored items reachable from construction by tick and dequeue
calls. -/
inductive Reachable : MonitoredItem → Prop where
  | new (monitored_item_id : Nat) (request : MonitoredItemCreateRequest) (now : ℤ)
      (m : MonitoredItem) :
      MonitoredItem.new monitored_item_id request now = Except.ok m → Reachable m
  | tick (m : MonitoredItem) (address_space : AddressSpace) (now : ℤ) (elapsed : Bool) :
      Reachable m → Reachable (m.tick address_space now elapsed).2
  | dequeue (m : MonitoredItem) :
      Reachable m → Reachable m.get_notification_message.2

/-! Concrete fixtures used by witnesses, counterexamples and the concrete
scenarios of the testable properties. -/

/-- A data value holding the opaque variant `n`, with neutral quality and
timestamps. -/
def dvOf (n : Nat) : DataValue :=
  { value := some ⟨n⟩
    status := StatusCode.other 0
    source_timestamp := 0
    source_pico_seconds := 0
    server_timestamp := 0
    server_pico_seconds := 0 }

/-- The notification produced for the fixture items when they sample `dvOf n`. -/
def notifOf (n : Nat) : MonitoredItemNotification :=
  { client_handle := 99, value := dvOf n }

/-- A filter that never judges two values equivalent: every comparison
reports a change. -/
def filterAlwaysChanged : DataChangeFilter :=
  ⟨fun _ _ _ => Except.ok false⟩

/-- A filter whose comparison call always fails. -/
def filterFailing : DataChangeFilter :=
  ⟨fun _ _ _ => Except.error (StatusCode.other 1)⟩

/-- A storage view holding one node (id 10) whose attribute 13 currently
reads `dvOf n`. -/
def asWith (n : Nat) : AddressSpace :=
  ⟨[(10, ⟨[(13, dvOf n)]⟩)]⟩

/-- A storage view with no nodes. -/
def emptyAddressSpace : AddressSpace :=
  ⟨[]⟩

/-- A monitored item targeting node 10, attribute 13, with the given
sampling interval, discard policy, queue size and filter; fresh state. -/
def mkItem (si : Duration) (discard : Bool) (qs : Nat) (f : DataChangeFilter) :
    MonitoredItem :=
  { monitored_item_id := 1
    item_to_monitor := { node_id := 10, attribute_id := 13 }
    monitoring_mode := MonitoringMode.Reporting
    client_handle := 99
    sampling_interval := si
    filter := FilterType.DataChangeFilter f
    discard_oldest := discard
    queue_size := qs
    notification_queue := []
    last_sample_time := 0
    last_data_value := none
    queue_overflow := false }

/-- A well-formed creation request (correct filter type identifier). -/
def reqGood : MonitoredItemCreateRequest :=
  { item_to_monitor := { node_id := 10, attribute_id := 13 }
    monitoring_mode := MonitoringMode.Reporting
    requested_parameters :=
      { client_handle := 99
        sampling_interval := F64.num 0
        filter := { node_id := dataChangeFilterEncodingDefaultBinaryId
                    decoded := Except.ok filterAlwaysChanged }
        queue_size := 3
        discard_oldest := true } }

/-- A creation request whose filter payload type identifier is not the
change-deadband filter encoding. -/
def reqBadFilter : MonitoredItemCreateRequest :=
  { reqGood with
    requested_parameters :=
      { reqGood.requested_parameters with
        filter := { node_id := 1, decoded := Except.ok filterAlwaysChanged } } }

/-- The item constructed from `reqGood` (the fallback branch is unreachable
because construction succeeds). -/
def mNew : MonitoredItem :=
  match MonitoredItem.new 1 reqGood 0 with
  | Except.ok m => m
  | Except.error _ => mkItem (F64.num 0) true 1 filterAlwaysChanged

/-- Item with a fractional positive sampling interval of half a millisecond,
last sampled at instant 10 with a prior observation. -/
def itemHalfMs : MonitoredItem :=
  { mkItem (F64.num (mkRat 1 2)) true 1 filterAlwaysChanged with
    last_sample_time := 10
    last_data_value := some (dvOf 1) }

/-- Item with zero sampling interval whose last sample time is instant 100. -/
def itemPastTick : MonitoredItem :=
  { mkItem (F64.num 0) true 1 filterAlwaysChanged with last_sample_time := 100 }

/-- Item holding a prior observation whose filter always fails. -/
def itemFailFilter : MonitoredItem :=
  { mkItem (F64.num 0) true 3 filterFailing with last_data_value := some (dvOf 1) }

/-- Fresh item with zero sampling interval (always due). -/
def itemFresh : MonitoredItem :=
  mkItem (F64.num 0) true 1 filterAlwaysChanged

/-- Item with a NaN sampling interval and no prior observation. -/
def itemNan : MonitoredItem :=
  mkItem F64.nan true 1 filterAlwaysChanged

/-- Item with two queued notifications and the overflow flag set. -/
def itemQueued : MonitoredItem :=
  { mkItem (F64.num 0) true 3 filterAlwaysChanged with
    notification_queue := [notifOf 2, notifOf 1]
    queue_overflow := true }

/-- Well-ordered tick arguments: each tick's instant is no earlier than the
given lower bound, and the instants are non-decreasing along the list. -/
def nowsAdmissible (t : ℤ) : List (AddressSpace × ℤ × Bool) → Prop
  | [] => True
  | (_, n, _) :: rest => t ≤ n ∧ nowsAdmissible n rest

/-- Run a sequence of tick calls, threading the item state. -/
def runTicks (m : MonitoredItem) : List (AddressSpace × ℤ × Bool) → MonitoredItem
  | [] => m
  | (address_space, now, elapsed) :: rest =>
    runTicks (m.tick address_space now elapsed).2 rest

/-! Helper lemmas. -/

theorem tick_not_due (m : MonitoredItem) (address_space : AddressSpace) (now : ℤ)
    (elapsed : Bool) (h : m.check_value now elapsed = false) :
    m.tick address_space now elapsed = (false, m) := by
  unfold MonitoredItem.tick
  simp [h]

theorem not_compare_eq_specChangeDecision (f : DataChangeFilter) (dv prev : DataValue) :
    (!(MonitoredItem.compare_data_values f dv prev)) = specChangeDecision (some prev) dv f := by
  rcases hdv : dv.value with _ | v1 <;> rcases hprev : prev.value with _ | v2 <;>
    simp [MonitoredItem.compare_data_values, specChangeDecision, hdv, hprev]
  rcases f.deadband_compare v1 v2 none with e | r <;> simp

theorem enqueue_fields (m : MonitoredItem) (msg : MonitoredItemNotification) :
    (m.enqueue_notification msg).queue_size = m.queue_size ∧
    (m.enqueue_notification msg).last_sample_time = m.last_sample_time := by
  unfold MonitoredItem.enqueue_notification
  split
  · split <;> exact ⟨rfl, rfl⟩
  · exact ⟨rfl, rfl⟩

theorem enqueue_length_le (m : MonitoredItem) (msg : MonitoredItemNotification)
    (h1 : 1 ≤ m.queue_size) (h2 : m.notification_queue.length ≤ m.queue_size) :
    (m.enqueue_notification msg).notification_queue.length ≤ m.queue_size := by
  unfold MonitoredItem.enqueue_notification
  split
  · rename_i hfull
    split <;> simp [List.length_dropLast, List.length_tail] <;> omega
  · rename_i hfull
    simp only [List.length_cons]
    omega

theorem enqueue_overflow_mono (m : MonitoredItem) (msg : MonitoredItemNotification)
    (h : m.queue_overflow = true) :
    (m.enqueue_notification msg).queue_overflow = true := by
  unfold MonitoredItem.enqueue_notification
  split
  · split <;> rfl
  · exact h

theorem new_ok_fields (monitored_item_id : Nat) (request : MonitoredItemCreateRequest)
    (now : ℤ) (m : MonitoredItem)
    (h : MonitoredItem.new monitored_item_id request now = Except.ok m) :
    1 ≤ m.queue_size ∧ m.notification_queue = [] ∧ m.queue_overflow = false ∧
    m.last_data_value = none := by
  unfold MonitoredItem.new at h
  split at h
  · exact absurd h (by simp)
  · cases hd : request.requested_parameters.filter.decode_inner with
    | error e => rw [hd] at h; exact absurd h (by simp)
    | ok f =>
      rw [hd] at h
      simp only [Except.ok.injEq] at h
      subst h
      refine ⟨?_, rfl, rfl, rfl⟩
      dsimp only
      split <;> omega

theorem tick_due_cases (m : MonitoredItem) (address_space : AddressSpace) (now : ℤ)
    (elapsed : Bool) (hc : m.check_value now elapsed = true) :
    (m.tick address_space now elapsed).2 = { m with last_sample_time := now } ∨
    ∃ dv, (m.tick address_space now elapsed).2 =
      ({ m with last_sample_time := now, last_data_value := some dv }).enqueue_notification
        { client_handle := m.client_handle, value := dv } := by
  obtain ⟨a1, a2, a3, a4, a5, ⟨f⟩, a7, a8, a9, a10, a11, a12⟩ := m
  unfold MonitoredItem.tick
  simp only [hc, Bool.not_true, Bool.false_eq_true, if_false]
  rcases hn : AddressSpace.find_node address_space a2.node_id with _ | node
  · simp only [hn]
    first
    | exact Or.inl trivial
    | exact Or.inl rfl
  rcases ha : AttributeId.from_u32 a2.attribute_id with e | attr <;> simp only [hn, ha]
  · first
    | exact Or.inl trivial
    | exact Or.inl rfl
  rcases hf : node.find_attribute attr with _ | dv <;> simp only [hf]
  · first
    | exact Or.inl trivial
    | exact Or.inl rfl
  cases a11 with
  | none => exact Or.inr ⟨dv, rfl⟩
  | some last =>
    simp only
    cases hcomp : MonitoredItem.compare_data_values f dv last <;> simp only [Bool.not_false,
      Bool.not_true, if_true, if_false, Bool.false_eq_true]
    · exact Or.inr ⟨dv, rfl⟩
    · first
      | exact Or.inl trivial
      | exact Or.inl rfl

theorem tick_cases (m : MonitoredItem) (address_space : AddressSpace) (now : ℤ)
    (elapsed : Bool) :
    (m.tick address_space now elapsed).2 = m ∨
    (m.tick address_space now elapsed).2 = { m with last_sample_time := now } ∨
    ∃ dv, (m.tick address_space now elapsed).2 =
      ({ m with last_sample_time := now, last_data_value := some dv }).enqueue_notification
        { client_handle := m.client_handle, value := dv } := by
  by_cases hc : m.check_value now elapsed = true
  · rcases tick_due_cases m address_space now elapsed hc with h | ⟨dv, h⟩
    · exact Or.inr (Or.inl h)
    · exact Or.inr (Or.inr ⟨dv, h⟩)
  · rw [tick_not_due m address_space now elapsed (by simpa using hc)]
    exact Or.inl rfl

theorem dequeue_cases (m : MonitoredItem) :
    m.get_notification_message.2 = m ∨
    m.get_notification_message.2 =
      { m with queue_overflow := false, notification_queue := m.notification_queue.tail } := by
  obtain ⟨a1, a2, a3, a4, a5, a6, a7, a8, a9, a10, a11, a12⟩ := m
  cases a9 with
  | nil => exact Or.inl rfl
  | cons n rest => exact Or.inr rfl

theorem tick_queue_size (m : MonitoredItem) (address_space : AddressSpace) (now : ℤ)
    (elapsed : Bool) :
    ((m.tick address_space now elapsed).2).queue_size = m.queue_size := by
  rcases tick_cases m address_space now elapsed with h | h | ⟨dv, h⟩ <;> rw [h] <;>
    first
      | rfl
      | exact (enqueue_fields _ _).1

theorem tick_inv (m : MonitoredItem) (address_space : AddressSpace) (now : ℤ)
    (elapsed : Bool) (h1 : 1 ≤ m.queue_size)
    (h2 : m.notification_queue.length ≤ m.queue_size) :
    1 ≤ ((m.tick address_space now elapsed).2).queue_size ∧
    ((m.tick address_space now elapsed).2).notification_queue.length ≤
      ((m.tick address_space now elapsed).2).queue_size := by
  rcases tick_cases m address_space now elapsed with h | h | ⟨dv, h⟩ <;> rw [h] <;>
    first
      | exact ⟨h1, h2⟩
      | refine ⟨by rw [(enqueue_fields _ _).1]; exact h1, ?_⟩
        rw [(enqueue_fields _ _).1]
        exact enqueue_length_le _ _ h1 h2

theorem dequeue_inv (m : MonitoredItem) (h1 : 1 ≤ m.queue_size)
    (h2 : m.notification_queue.length ≤ m.queue_size) :
    1 ≤ m.get_notification_message.2.queue_size ∧
    m.get_notification_message.2.notification_queue.length ≤
      m.get_notification_message.2.queue_size := by
  rcases dequeue_cases m with h | h <;> rw [h]
  · exact ⟨h1, h2⟩
  · refine ⟨h1, ?_⟩
    simp only [List.length_tail]
    omega

/-- Claim C2: every monitored item produced by construction and any sequence
of tick and dequeue calls has a queue capacity of at least 1 (a requested
size below 1 is clamped to 1), and its notification queue never grows past
that capacity. -/
theorem queue_capacity_invariant (m : MonitoredItem) (h : Reachable m) :
    1 ≤ m.queue_size ∧ m.notification_queue.length ≤ m.queue_size := by
  induction h with
  | new monitored_item_id request now m0 hnew =>
    obtain ⟨hq, hnil, _, _⟩ := new_ok_fields _ _ _ _ hnew
    exact ⟨hq, by simp [hnil]⟩
  | tick m0 address_space now elapsed _ ih => exact tick_inv _ _ _ _ ih.1 ih.2
  | dequeue m0 _ ih => exact dequeue_inv _ ih.1 ih.2

/-- Witness for C2: the invariant evaluated on the concrete item obtained by
constructing from `reqGood` and ticking once. -/
theorem queue_capacity_invariant_witness :
    1 ≤ ((mNew.tick (asWith 1) 1 false).2).queue_size ∧
    ((mNew.tick (asWith 1) 1 false).2).notification_queue.length ≤
      ((mNew.tick (asWith 1) 1 false).2).queue_size :=
  queue_capacity_invariant _
    (Reachable.tick mNew (asWith 1) 1 false (Reachable.new 1 reqGood 0 mNew rfl))

/-- Claim C3: with capacity 3 and discard_oldest = true, four change-detecting
ticks enqueueing A, B, C, D leave the queue front-to-back as [D, C, B] and set
the overflow flag: the oldest (back) entry was discarded and D inserted at the
front. -/
theorem discard_oldest_overflow :
    (let m := mkItem (F64.num 0) true 3 filterAlwaysChanged
     let s4 := ((((m.tick (asWith 1) 1 false).2.tick (asWith 2) 2 false).2.tick
       (asWith 3) 3 false).2.tick (asWith 4) 4 false).2
     s4.notification_queue = [notifOf 4, notifOf 3, notifOf 2] ∧
     s4.queue_overflow = true) := by
  decide

/-- Claim C4: with capacity 3 and discard_oldest = false, enqueueing A, B, C
gives [C, B, A]; a fourth change-detecting tick overwrites the front entry,
giving [D, B, A] with the overflow flag set and the older entries untouched. -/
theorem overwrite_front_overflow :
    (let m := mkItem (F64.num 0) false 3 filterAlwaysChanged
     let s3 := (((m.tick (asWith 1) 1 false).2.tick (asWith 2) 2 false).2.tick
       (asWith 3) 3 false).2
     let s4 := (s3.tick (asWith 4) 4 false).2
     s3.notification_queue = [notifOf 3, notifOf 2, notifOf 1] ∧
     s4.notification_queue = [notifOf 4, notifOf 2, notifOf 1] ∧
     s4.queue_overflow = true) := by
  decide

theorem tick_lst_cases (m : MonitoredItem) (address_space : AddressSpace) (now : ℤ)
    (elapsed : Bool) :
    ((m.tick address_space now elapsed).2).last_sample_time = m.last_sample_time ∨
    ((m.tick address_space now elapsed).2).last_sample_time = now := by
  rcases tick_cases m address_space now elapsed with h | h | ⟨dv, h⟩ <;> rw [h]
  · exact Or.inl rfl
  · exact Or.inr rfl
  · rw [(enqueue_fields _ _).2]
    exact Or.inr rfl

/-- Counterexample to C5 as stated: with a sampling interval of half a
millisecond and one nanosecond elapsed, the code judges the item due (the
`as i64` cast truncates the bound to 0 ms) while the claim's exact
comparison says not due; the due tick then stamps `last_sample_time`. -/
theorem sampling_due_claim_counterexample :
    itemHalfMs.check_value 11 false = true ∧
    specDueClaim itemHalfMs 11 false = false ∧
    ((itemHalfMs.tick emptyAddressSpace 11 false).2).last_sample_time = 11 := by
  decide

/-- Claim C5 (amended): tick's due decision follows the sign of
sampling_interval: for a positive interval the item is due exactly when
now - last_sample_time is at least the interval truncated toward zero (and
saturated) to a whole number of milliseconds; a zero interval is always due;
a negative interval is due exactly when the subscription elapsed flag is
set; an interval not comparable with 0 (NaN) is due exactly when no prior
observation exists. A non-due tick returns false and leaves the item
untouched; a due tick stamps `last_sample_time` with now. -/
theorem tick_due_decision (m : MonitoredItem) (address_space : AddressSpace)
    (now : ℤ) (elapsed : Bool) :
    m.check_value now elapsed = specDueAmended m now elapsed ∧
    (m.check_value now elapsed = false → m.tick address_space now elapsed = (false, m)) ∧
    (m.check_value now elapsed = true →
      ((m.tick address_space now elapsed).2).last_sample_time = now) := by
  refine ⟨?_, fun h => tick_not_due m address_space now elapsed h, fun h => ?_⟩
  · unfold MonitoredItem.check_value specDueAmended
    cases hsi : m.sampling_interval with
    | nan => simp [F64.gt0, F64.eq0, F64.lt0]
    | num q =>
      by_cases h1 : 0 < q
      · simp [F64.gt0, F64.eq0, F64.lt0, h1, hsi]
      · by_cases h2 : q = 0
        · simp [F64.gt0, F64.eq0, F64.lt0, h1, h2]
        · have h3 : q < 0 := by
            rcases lt_trichotomy q 0 with h | h | h
            · exact h
            · exact absurd h h2
            · exact absurd h h1
          simp [F64.gt0, F64.eq0, F64.lt0, h1, h2, h3]
  · rcases tick_due_cases m address_space now elapsed h with h2 | ⟨dv, h2⟩ <;> rw [h2] <;>
      first
        | rfl
        | rw [(enqueue_fields _ _).2]

/-- Witness for the amended C5: an item with a NaN interval and no prior
observation is due, and the due tick stamps `last_sample_time` with now. -/
theorem tick_due_decision_witness :
    ((itemNan.tick emptyAddressSpace 7 false).2).last_sample_time = 7 :=
  (tick_due_decision itemNan emptyAddressSpace 7 false).2.2 (by decide)

/-- Counterexample to C9 as stated: a tick whose now argument lies in the
past of `last_sample_time` (always due, zero interval) moves
`last_sample_time` backwards. -/
theorem last_sample_time_decrease_counterexample :
    ((itemPastTick.tick emptyAddressSpace 50 false).2).last_sample_time <
      itemPastTick.last_sample_time := by
  decide

theorem nowsAdmissible_mono (t t' : ℤ) (ticks : List (AddressSpace × ℤ × Bool))
    (h : t' ≤ t) (hl : nowsAdmissible t ticks) : nowsAdmissible t' ticks := by
  cases ticks with
  | nil => trivial
  | cons p rest =>
    obtain ⟨a, n, e⟩ := p
    exact ⟨le_trans h hl.1, hl.2⟩

/-- Claim C9 (amended): `last_sample_time` is monotonically non-decreasing
across ticks provided the now arguments are well ordered: a single tick
whose now is not earlier than the current `last_sample_time` never decreases
it, and along any sequence of ticks with non-decreasing now arguments
starting no earlier than the item's `last_sample_time`, the final
`last_sample_time` is at least the initial one. With arbitrary
(time-reversing) now arguments it can decrease. -/
theorem last_sample_time_monotone (m : MonitoredItem) (address_space : AddressSpace)
    (now : ℤ) (elapsed : Bool) (ticks : List (AddressSpace × ℤ × Bool)) :
    (m.last_sample_time ≤ now →
      m.last_sample_time ≤ ((m.tick address_space now elapsed).2).last_sample_time) ∧
    (nowsAdmissible m.last_sample_time ticks →
      m.last_sample_time ≤ (runTicks m ticks).last_sample_time) := by
  constructor
  · intro h
    rcases tick_lst_cases m address_space now elapsed with h2 | h2 <;> rw [h2] <;>
      first
        | exact le_refl _
        | exact h
  · induction ticks generalizing m with
    | nil => intro _; exact le_refl _
    | cons p rest ih =>
      intro h
      obtain ⟨a, n, e⟩ := p
      obtain ⟨h1, h2⟩ := h
      have hstep : m.last_sample_time ≤ ((m.tick a n e).2).last_sample_time := by
        rcases tick_lst_cases m a n e with h3 | h3 <;> rw [h3] <;>
          first
            | exact le_refl _
            | exact h1
      have hle_n : ((m.tick a n e).2).last_sample_time ≤ n := by
        rcases tick_lst_cases m a n e with h3 | h3 <;> rw [h3] <;>
          first
            | exact h1
            | exact le_refl _
      exact le_trans hstep (ih ((m.tick a n e).2) (nowsAdmissible_mono _ _ _ hle_n h2))

/-- Witness for the amended C9: a concrete two-tick run with non-decreasing
instants never decreases `last_sample_time`. -/
theorem last_sample_time_monotone_witness :
    itemFresh.last_sample_time ≤
      (runTicks itemFresh [(asWith 1, 5, false), (asWith 2, 9, true)]).last_sample_time :=
  (last_sample_time_monotone itemFresh emptyAddressSpace 5 false
      [(asWith 1, 5, false), (asWith 2, 9, true)]).2 ⟨by decide, by decide, trivial⟩

/-- Claim C1: on a due tick where a DataValue was retrieved, the change
decision is as specified: no previous observation counts as changed; a
Some/None transition of the inner values counts as changed; both inner
values absent counts as unchanged; both present defers to the filter's
equivalence verdict, and a failing filter call counts as unchanged, in which
case tick returns false and nothing is enqueued. -/
theorem tick_change_decision (m : MonitoredItem) (address_space : AddressSpace)
    (now : ℤ) (elapsed : Bool) (node : Node) (attr : Nat) (dv : DataValue)
    (f : DataChangeFilter)
    (hdue : m.check_value now elapsed = true)
    (hnode : address_space.find_node m.item_to_monitor.node_id = some node)
    (hattr : AttributeId.from_u32 m.item_to_monitor.attribute_id = Except.ok attr)
    (hdv : node.find_attribute attr = some dv)
    (hfil : m.filter = FilterType.DataChangeFilter f) :
    (m.tick address_space now elapsed).1 = specChangeDecision m.last_data_value dv f ∧
    (specChangeDecision m.last_data_value dv f = false →
      ((m.tick address_space now elapsed).2).notification_queue = m.notification_queue ∧
      ((m.tick address_space now elapsed).2).queue_overflow = m.queue_overflow ∧
      ((m.tick address_space now elapsed).2).last_data_value = m.last_data_value) := by
  obtain ⟨a1, a2, a3, a4, a5, a6, a7, a8, a9, a10, a11, a12⟩ := m
  obtain ⟨f0⟩ := a6
  injection hfil with hf
  subst hf
  unfold MonitoredItem.tick
  simp only [hdue, Bool.not_true, Bool.false_eq_true, if_false] at *
  simp only [hnode, hattr, hdv]
  cases a11 with
  | none => simp [specChangeDecision]
  | some last =>
    simp only
    rw [show (specChangeDecision (some last) dv f0) =
      (!(MonitoredItem.compare_data_values f0 dv last)) from
      (not_compare_eq_specChangeDecision f0 dv last).symm]
    cases hcomp : MonitoredItem.compare_data_values f0 dv last <;>
      simp only [Bool.not_false, Bool.not_true, if_true, if_false, Bool.false_eq_true,
        Bool.true_eq_false]
    · refine ⟨?_, fun h => ?_⟩
      · first | trivial | rfl
      · first | exact h.elim | simp at h
    · refine ⟨?_, fun _ => ⟨?_, ?_, ?_⟩⟩ <;> first | trivial | rfl

/-- Witness for C1: with both the current and previous inner values present
and a filter whose comparison call fails, the due tick reports no change and
leaves the queue empty. -/
theorem tick_change_decision_witness :
    (itemFailFilter.tick (asWith 2) 5 false).1 = false ∧
    ((itemFailFilter.tick (asWith 2) 5 false).2).notification_queue = [] := by
  have h := tick_change_decision itemFailFilter (asWith 2) 5 false ⟨[(13, dvOf 2)]⟩ 13 (dvOf 2)
    filterFailing (by decide) rfl rfl rfl rfl
  exact ⟨h.1.trans (by decide), ((h.2 (by decide)).1).trans rfl⟩

theorem tick_overflow_mono (m : MonitoredItem) (address_space : AddressSpace) (now : ℤ)
    (elapsed : Bool) (h : m.queue_overflow = true) :
    ((m.tick address_space now elapsed).2).queue_overflow = true := by
  rcases tick_cases m address_space now elapsed with h2 | h2 | ⟨dv, h2⟩ <;> rw [h2] <;>
    first
      | exact h
      | exact enqueue_overflow_mono _ _ h

/-- Claim C6: dequeue on a non-empty queue removes and returns the front
entry and clears the overflow flag; on an empty queue it returns none and
leaves all state unchanged; and an enqueueing tick never clears the flag. -/
theorem dequeue_front_clears_overflow (m : MonitoredItem) (address_space : AddressSpace)
    (now : ℤ) (elapsed : Bool) :
    (m.notification_queue = [] → m.get_notification_message = (none, m)) ∧
    (∀ n rest, m.notification_queue = n :: rest →
      m.get_notification_message =
        (some n, { m with queue_overflow := false, notification_queue := rest })) ∧
    (m.queue_overflow = true → ((m.tick address_space now elapsed).2).queue_overflow = true) := by
  refine ⟨?_, ?_, fun h => tick_overflow_mono m address_space now elapsed h⟩
  · intro h
    obtain ⟨a1, a2, a3, a4, a5, a6, a7, a8, a9, a10, a11, a12⟩ := m
    dsimp only at h
    subst h
    rfl
  · intro n rest h
    obtain ⟨a1, a2, a3, a4, a5, a6, a7, a8, a9, a10, a11, a12⟩ := m
    dsimp only at h
    subst h
    rfl

/-- Witness for C6: dequeue on a two-entry queue with the overflow flag set
returns the front entry, keeps the rest and clears the flag; a tick on the
same item keeps the flag set. -/
theorem dequeue_front_clears_overflow_witness :
    itemQueued.get_notification_message =
      (some (notifOf 2),
        { itemQueued with queue_overflow := false, notification_queue := [notifOf 1] }) ∧
    ((itemQueued.tick (asWith 3) 1 false).2).queue_overflow = true :=
  ⟨(dequeue_front_clears_overflow itemQueued (asWith 3) 1 false).2.1 (notifOf 2) [notifOf 1] rfl,
   (dequeue_front_clears_overflow itemQueued (asWith 3) 1 false).2.2 rfl⟩

/-- Claim C7: on a due tick, `last_sample_time` is set to now before the
storage lookup, and every lookup miss (node absent, invalid attribute id, or
attribute value absent) makes tick return false silently with no other state
change. -/
theorem tick_lookup_miss_silent (m : MonitoredItem) (address_space : AddressSpace)
    (now : ℤ) (elapsed : Bool)
    (hdue : m.check_value now elapsed = true)
    (hmiss : address_space.find_node m.item_to_monitor.node_id = none ∨
      (∃ node, address_space.find_node m.item_to_monitor.node_id = some node ∧
        AttributeId.from_u32 m.item_to_monitor.attribute_id = Except.error ()) ∨
      (∃ node attr, address_space.find_node m.item_to_monitor.node_id = some node ∧
        AttributeId.from_u32 m.item_to_monitor.attribute_id = Except.ok attr ∧
        node.find_attribute attr = none)) :
    m.tick address_space now elapsed = (false, { m with last_sample_time := now }) := by
  obtain ⟨a1, a2, a3, a4, a5, ⟨f⟩, a7, a8, a9, a10, a11, a12⟩ := m
  unfold MonitoredItem.tick
  simp only [hdue, Bool.not_true, Bool.false_eq_true, if_false] at *
  rcases hmiss with h | ⟨node, h1, h2⟩ | ⟨node, attr, h1, h2, h3⟩
  · simp only [h]
  · simp only [h1, h2]
  · simp only [h1, h2, h3]

/-- Witness for C7: a due tick against an empty storage view returns false
and only stamps `last_sample_time`. -/
theorem tick_lookup_miss_silent_witness :
    itemFresh.tick emptyAddressSpace 5 false =
      (false, { itemFresh with last_sample_time := 5 }) :=
  tick_lookup_miss_silent itemFresh emptyAddressSpace 5 false (by decide) (Or.inl rfl)

/-- Claim C8: construction rejects any creation request whose filter payload
type identifier is not the change-deadband filter encoding with
BadFilterNotAllowed, creating no item; a successfully constructed item
starts with an empty queue, a clear overflow flag and no prior observation. -/
theorem construction_filter_validation (monitored_item_id : Nat)
    (request : MonitoredItemCreateRequest) (now : ℤ) (m : MonitoredItem) :
    (request.requested_parameters.filter.node_id ≠ dataChangeFilterEncodingDefaultBinaryId →
      MonitoredItem.new monitored_item_id request now =
        Except.error StatusCode.BadFilterNotAllowed) ∧
    (MonitoredItem.new monitored_item_id request now = Except.ok m →
      m.notification_queue = [] ∧ m.queue_overflow = false ∧ m.last_data_value = none) := by
  constructor
  · intro h
    unfold MonitoredItem.new
    rw [if_pos h]
  · intro h
    obtain ⟨_, h1, h2, h3⟩ := new_ok_fields _ _ _ _ h
    exact ⟨h1, h2, h3⟩

/-- Witness for C8: the mismatched request is rejected with
BadFilterNotAllowed, and the item built from the well-formed request starts
with empty queue, clear flag and no prior observation. -/
theorem construction_filter_validation_witness :
    MonitoredItem.new 1 reqBadFilter 0 = Except.error StatusCode.BadFilterNotAllowed ∧
    (mNew.notification_queue = [] ∧ mNew.queue_overflow = false ∧
      mNew.last_data_value = none) :=
  ⟨(construction_filter_validation 1 reqBadFilter 0 mNew).1 (by decide),
    (construction_filter_validation 1 reqGood 0 mNew).2 rfl⟩

theorem dequeue_mode (m : MonitoredItem) (mode : MonitoringMode) :
    ({ m with monitoring_mode := mode } : MonitoredItem).get_notification_message =
      (m.get_notification_message.1,
        { m.get_notification_message.2 with monitoring_mode := mode }) := by
  obtain ⟨a1, a2, a3, a4, a5, a6, a7, a8, a9, a10, a11, a12⟩ := m
  cases a9 <;> rfl

theorem tick_mode (m : MonitoredItem) (mode : MonitoringMode) (address_space : AddressSpace)
    (now : ℤ) (elapsed : Bool) :
    ({ m with monitoring_mode := mode } : MonitoredItem).tick address_space now elapsed =
      ((m.tick address_space now elapsed).1,
        { (m.tick address_space now elapsed).2 with monitoring_mode := mode }) := by
  obtain ⟨a1, a2, a3, a4, a5, ⟨f⟩, a7, a8, a9, a10, a11, a12⟩ := m
  have hEq : MonitoredItem.check_value
      ⟨a1, a2, mode, a4, a5, FilterType.DataChangeFilter f, a7, a8, a9, a10, a11, a12⟩
        now elapsed =
      MonitoredItem.check_value
      ⟨a1, a2, a3, a4, a5, FilterType.DataChangeFilter f, a7, a8, a9, a10, a11, a12⟩
        now elapsed := rfl
  unfold MonitoredItem.tick
  simp only [hEq]
  by_cases hc : MonitoredItem.check_value
      ⟨a1, a2, a3, a4, a5, FilterType.DataChangeFilter f, a7, a8, a9, a10, a11, a12⟩
        now elapsed = true
  case neg =>
    rw [Bool.not_eq_true] at hc
    simp only [hc, Bool.not_false, if_true]
  case pos =>
    simp only [hc, Bool.not_true, Bool.false_eq_true, if_false]
    rcases hn : AddressSpace.find_node address_space a2.node_id with _ | node <;>
      simp only [hn]
    all_goals try rfl
    rcases ha : AttributeId.from_u32 a2.attribute_id with e | attr <;> simp only [ha]
    all_goals try rfl
    rcases hf2 : node.find_attribute attr with _ | dv <;> simp only [hf2]
    all_goals try rfl
    cases a11 with
    | none =>
      simp only [MonitoredItem.enqueue_notification]
      by_cases h1 : a9.length = a8 <;> by_cases h2 : a7 = true <;> simp [h1, h2]
    | some last =>
      cases hcomp : MonitoredItem.compare_data_values f dv last <;> simp only [hcomp]
      · simp only [MonitoredItem.enqueue_notification, Bool.not_false, if_true]
        by_cases h1 : a9.length = a8 <;> by_cases h2 : a7 = true <;> simp [h1, h2]
      · simp only [Bool.not_true, Bool.false_eq_true, if_false]

/-- Claim C10: the behaviour of tick and dequeue is independent of
monitoring_mode: for any two items identical except for monitoring_mode
(for example Disabled versus Reporting), the same sequence of tick and
dequeue calls returns identical results and leaves states identical apart
from the monitoring_mode field itself — a Disabled item still samples,
detects changes and enqueues notifications. -/
theorem monitoring_mode_independent (m : MonitoredItem) (mode : MonitoringMode)
    (calls : List Call) :
    (runCalls { m with monitoring_mode := mode } calls).2 = (runCalls m calls).2 ∧
    (runCalls { m with monitoring_mode := mode } calls).1 =
      { (runCalls m calls).1 with monitoring_mode := mode } := by
  induction calls generalizing m with
  | nil => exact ⟨rfl, rfl⟩
  | cons c rest ih =>
    cases c with
    | tick address_space now elapsed =>
      obtain ⟨ih1, ih2⟩ := ih ((m.tick address_space now elapsed).2)
      refine ⟨?_, ?_⟩ <;>
        simp only [runCalls, tick_mode m mode address_space now elapsed, ih1, ih2]
    | dequeue =>
      obtain ⟨ih1, ih2⟩ := ih (m.get_notification_message.2)
      refine ⟨?_, ?_⟩ <;>
        simp only [runCalls, dequeue_mode m mode, ih1, ih2]

end OpcUa
